import Mathlib

/-!
Shallow embedding of the fastbots-mvp backend (src/server.js, latest variant:
the module exporting the Express app, lines 407-627). JavaScript strings are
modelled as Lean strings with operations implemented over their character
lists so that they evaluate by kernel reduction; all inputs used in proofs
are ASCII, where the JS operations and these models agree. The SQLite store
is modelled as in-memory lists of rows; SELECT in persisted (insertion)
order, INSERT as append, UPDATE as an id-guarded map. External effects (the
inference HTTP call, PDF/text extraction) are passed in as explicit outcome
parameters, since their results are decided outside the program.
-/

namespace Fastbots

/-- Model of JavaScript `s.toLowerCase()` (agrees with it on ASCII, the only
range exercised here): lowercases each character. -/
def jsToLower (s : String) : String := (s.toList.map Char.toLower).asString

/-- Model of JavaScript `s.split(' ')[0]`: the prefix of `s` up to (not
including) the first space character. For the empty string or a string
beginning with a space this is the empty string, exactly as in JS where
`"".split(' ')` is `[""]`. -/
def firstToken (s : String) : String := (s.toList.takeWhile (fun c => c ≠ ' ')).asString

/-- Model of JavaScript `s.slice(0, n)` (code units and characters coincide
on ASCII): the first `n` characters of `s`. -/
def jsSlice (s : String) (n : Nat) : String := (s.toList.take n).asString

/-- Helper for `jsSplitNewline`: accumulates the current segment (reversed). -/
def splitLinesAux : List Char → List Char → List String
  | [], acc => [acc.reverse.asString]
  | c :: rest, acc =>
    if c = '\n' then acc.reverse.asString :: splitLinesAux rest []
    else splitLinesAux rest (c :: acc)

/-- Model of JavaScript `s.split('\n')`: segments between newline characters;
the empty string splits to `[""]`, as in JS. -/
def jsSplitNewline (s : String) : List String := splitLinesAux s.toList []

/-- Model of JavaScript `arr.join('\n')`. -/
def jsJoinNewline : List String → String
  | [] => ""
  | [x] => x
  | x :: y :: xs => x ++ "\n" ++ jsJoinNewline (y :: xs)

/-- Character-list prefix test used by the substring model. -/
def isPre : List Char → List Char → Bool
  | [], _ => true
  | _ :: _, [] => false
  | a :: as_, b :: bs => a == b && isPre as_ bs

/-- Helper for `jsIncludes`: does `needle` occur as a contiguous run in the
haystack list? -/
def jsIncludesL (needle : List Char) : List Char → Bool
  | [] => needle.isEmpty
  | c :: t => isPre needle (c :: t) || jsIncludesL needle t

/-- Model of JavaScript `hay.includes(needle)`: substring containment. Note
that, as in JS, the empty needle is contained in every string. -/
def jsIncludes (hay needle : String) : Bool := jsIncludesL needle.toList hay.toList

/-- JavaScript truthiness of a string: every string except `""` is truthy. -/
def jsTruthy (s : String) : Bool := s ≠ ""

/-- Model of `v || d` where `v` is an optional string field of a request body
(`none` models the property being absent, i.e. `undefined`, or `null`): the
supplied value when it is truthy, otherwise the fallback `d`. -/
def jsOrStr (v : Option String) (d : String) : String :=
  match v with
  | some s => if s = "" then d else s
  | none => d

/-- JavaScript falsiness of an optional request-body string (`!x`): absent or
the empty string. -/
def jsFalsyOptStr : Option String → Bool
  | none => true
  | some s => s = ""

/-- A row of the `bots` table (src/server.js lines 428-436). `quickReplies`
is stored serialized (`JSON.stringify`) and parsed on every read
(`JSON.parse`); since that round trip is the identity on lists of strings,
the model stores the list directly. -/
structure Bot where
  id : String
  name : String
  avatar : String
  themeColor : String
  welcome : String
  quickReplies : List String
  createdAt : Nat
deriving Repr, DecidableEq

/-- A row of the `documents` table (src/server.js lines 437-443). -/
structure Document where
  id : String
  botId : String
  filename : String
  text : String
  addedAt : Nat
deriving Repr, DecidableEq

/-- The SQLite database: both tables, rows in insertion order. -/
structure Store where
  bots : List Bot
  documents : List Document
deriving Repr, DecidableEq

/-- The row predicate of `WHERE id = ?` on the bots table. -/
def botPred (id : String) (b : Bot) : Bool := b.id == id

/-- `getBot` (src/server.js lines 461-466): `SELECT * FROM bots WHERE id = ?`
returning the (unique, since `id` is the primary key) matching row, or
nothing. -/
def getBot (store : Store) (id : String) : Option Bot :=
  store.bots.find? (botPred id)

/-- `getBotDocuments` (src/server.js lines 473-475): all documents of the bot,
in persisted order. -/
def getBotDocuments (store : Store) (botId : String) : List Document :=
  store.documents.filter (fun d => d.botId == botId)

/-- `createBotRecord` (src/server.js lines 457-460): INSERT a bots row. -/
def createBotRecord (store : Store) (b : Bot) : Store :=
  { store with bots := store.bots ++ [b] }

/-- `saveDocument` (src/server.js lines 467-472): INSERT a documents row with
a fresh id and the current timestamp, both passed in explicitly here. -/
def saveDocument (store : Store) (docId botId filename text : String) (now : Nat) : Store :=
  { store with documents := store.documents ++ [⟨docId, botId, filename, text, now⟩] }

/-- Request body of `POST /api/bot`; `none` models an absent (or `null`)
property. -/
structure CreateBotReq where
  name : Option String
  avatar : Option String
  themeColor : Option String
  welcome : Option String
  quickReplies : Option (List String)
deriving Repr, DecidableEq

/-- Response of `POST /api/bot`. -/
inductive CreateResp where
  | ok (botId : String)
  | badRequest (error : String)
deriving Repr, DecidableEq

/-- `POST /api/bot` (src/server.js lines 483-489): 400 when `name` is falsy;
otherwise builds the row with `req.body.x || default` for each optional field
(`quickReplies` is an array, truthy even when empty, hence plain defaulting
on absence) and inserts it. The fresh uuid and `Date.now()` are passed in. -/
def postBot (store : Store) (req : CreateBotReq) (freshId : String) (now : Nat) :
    CreateResp × Store :=
  if jsFalsyOptStr req.name then (.badRequest "name required", store)
  else
    let bot : Bot := {
      id := freshId
      name := req.name.getD ""
      avatar := jsOrStr req.avatar ""
      themeColor := jsOrStr req.themeColor "#4CAF50"
      welcome := jsOrStr req.welcome "Hi! How can I help?"
      quickReplies := req.quickReplies.getD []
      createdAt := now }
    (.ok freshId, createBotRecord store bot)

/-- The JSON body returned by `GET /api/bot/:botId/settings`. -/
structure BotSettings where
  id : String
  name : String
  avatar : String
  themeColor : String
  welcome : String
  quickReplies : List String
deriving Repr, DecidableEq

/-- Response of `GET /api/bot/:botId/settings`. -/
inductive SettingsResp where
  | ok (s : BotSettings)
  | notFound (error : String)
deriving Repr, DecidableEq

/-- `GET /api/bot/:botId/settings` (src/server.js lines 518-529): 404 when the
bot does not exist, otherwise its fields. -/
def getBotSettings (store : Store) (botId : String) : SettingsResp :=
  match getBot store botId with
  | none => .notFound "bot not found"
  | some b => .ok ⟨b.id, b.name, b.avatar, b.themeColor, b.welcome, b.quickReplies⟩

/-- Request body of `POST /api/bot/:botId/settings`. -/
structure UpdateReq where
  avatar : Option String
  themeColor : Option String
  welcome : Option String
  quickReplies : Option (List String)
deriving Repr, DecidableEq

/-- Response of `POST /api/bot/:botId/settings`. -/
inductive UpdateResp where
  | ok
  | notFound (error : String)
deriving Repr, DecidableEq

/-- `POST /api/bot/:botId/settings` (src/server.js lines 602-617): 404 when
the bot does not exist; otherwise `UPDATE bots SET avatar=?, themeColor=?,
welcome=?, quickReplies=? WHERE id=?` with each value `req.body.x || bot.x`.
Only rows whose id matches are rewritten; `name`, `id` and `createdAt` are
not in the SET list and keep their values. -/
def updateBotSettings (store : Store) (botId : String) (req : UpdateReq) :
    UpdateResp × Store :=
  match getBot store botId with
  | none => (.notFound "bot not found", store)
  | some bot =>
    let newBot : Bot := { bot with
      avatar := jsOrStr req.avatar bot.avatar
      themeColor := jsOrStr req.themeColor bot.themeColor
      welcome := jsOrStr req.welcome bot.welcome
      quickReplies := req.quickReplies.getD bot.quickReplies }
    (.ok, { store with bots := store.bots.map (fun b => if botPred botId b then newBot else b) })

/-- The uploaded file handed over by the multipart middleware: original name
and declared content type. Its temporary on-disk path is tracked by the
`tempFileDeleted` flag of `UploadOutcome`. -/
structure UploadedFile where
  originalname : String
  mimetype : String
deriving Repr, DecidableEq

/-- Outcome of the text-extraction step (src/server.js lines 500-506): the
PDF branch (`pdf(...)` then `data.text || ''`) or the UTF-8 read
(`fs.readFileSync`). Both are external calls, so their result is a
parameter: `ok text` when extraction produced `text`, `fail msg` when it
threw an error with message `msg`. -/
inductive ExtractOutcome where
  | ok (text : String)
  | fail (msg : String)
deriving Repr, DecidableEq

/-- HTTP response of `POST /api/bot/:botId/upload`. -/
inductive UploadResp where
  | ok (filename : String)
  | notFound (error : String)
  | badRequest (error : String)
  | serverError (error : String)
deriving Repr, DecidableEq

/-- Result of one run of the upload handler: the response, the store after
the run, and whether `fs.unlinkSync` was executed on the temporary upload
file. -/
structure UploadOutcome where
  resp : UploadResp
  store : Store
  tempFileDeleted : Bool
deriving Repr, DecidableEq

/-- `POST /api/bot/:botId/upload` (src/server.js lines 492-515): 404 when the
bot does not exist, 400 when no file was sent; otherwise extract text, save
the document, `fs.unlinkSync(filepath)`, and answer ok. A thrown extraction
error is caught and answered as 500 with `String(err.message || err)`; the
catch block contains no unlink, so `tempFileDeleted` is false there. -/
def uploadDoc (store : Store) (botId : String) (file : Option UploadedFile)
    (extract : ExtractOutcome) (freshDocId : String) (now : Nat) : UploadOutcome :=
  match getBot store botId with
  | none => ⟨.notFound "bot not found", store, false⟩
  | some _ =>
    match file with
    | none => ⟨.badRequest "file required", store, false⟩
    | some f =>
      match extract with
      | .fail msg => ⟨.serverError msg, store, false⟩
      | .ok text =>
        ⟨.ok f.originalname, saveDocument store freshDocId botId f.originalname text now, true⟩

/-- The context scan inside `handleChat` (src/server.js lines 538-543): a
document matches when its text is truthy and its lowercased text contains
the token. -/
def docMatches (tok : String) (d : Document) : Bool :=
  jsTruthy d.text && jsIncludes (jsToLower d.text) tok

/-- The `for (const d of docs) ... break` loop of src/server.js lines 538-543:
first 800 characters of the first matching document, empty string when none
matches. -/
def findLoop (tok : String) : List Document → String
  | [] => ""
  | d :: ds => if docMatches tok d then jsSlice d.text 800 else findLoop tok ds

/-- `FindContext` (spec section 4.3), inlined in `handleChat` at src/server.js
lines 536-543: scan the bot's documents for the first whose lowercased text
contains `message.toLowerCase().split(' ')[0]`. -/
def findContext (store : Store) (botId message : String) : String :=
  findLoop (firstToken (jsToLower message)) (getBotDocuments store botId)

/-- Fixed reply of src/server.js line 571. -/
def foundSomethingMsg : String := "I found something but can\x27t make a full answer."

/-- Fixed reply of src/server.js line 574. -/
def dontKnowMsg : String := "Sorry, I don\x27t know the answer to that yet. Try one of the options."

/-- The value of one chat exchange: `{ reply, quickReplies }`. -/
structure ChatResult where
  reply : String
  quickReplies : List String
deriving Repr, DecidableEq

/-- Errors thrown by `handleChat`: `throw new Error('bot not found')`
(src/server.js line 534). -/
inductive ChatError where
  | botNotFound
deriving Repr, DecidableEq

/-- `err.message` of a `ChatError`. -/
def chatErrorMessage : ChatError → String
  | .botNotFound => "bot not found"

/-- The shape of the inference response body, abstracted to exactly the
fields the parse at src/server.js lines 554-557 reads: whether the body is
an array (and then the `generated_text` of its first element, when that
property is present), a non-null non-array value (and then its
`generated_text` property, when present), or null/undefined. `serialized`
carries `JSON.stringify` of the body. -/
inductive JsonShape where
  | arr (firstGen : Option String) (serialized : String)
  | obj (gen : Option String) (serialized : String)
  | nullish
deriving Repr, DecidableEq

/-- Outcome of the `axios.post` call to the inference endpoint (src/server.js
lines 548-552): `reject` when the request failed (timeout, transport error,
non-2xx status — axios rejects on all of these), `resolve data` when it
returned a 2xx response with body `data`. -/
inductive HfOutcome where
  | reject
  | resolve (data : JsonShape)
deriving Repr, DecidableEq

/-- The response parse of src/server.js lines 554-557:
`Array.isArray(data) && data[0]?.generated_text` (a truthy generated text of
the first array element wins), else `data.generated_text` (truthy wins; on a
null body this property read throws a TypeError, modelled as `.error`), else
`JSON.stringify(data)`. An array never has a `generated_text` property, so a
falsy first-element text falls to the stringify case. -/
def hfParse : JsonShape → Except Unit String
  | .arr (some t) ser => if jsTruthy t then .ok t else .ok ser
  | .arr none ser => .ok ser
  | .obj (some t) ser => if jsTruthy t then .ok t else .ok ser
  | .obj none ser => .ok ser
  | .nullish => .error ()

/-- The shared local reply chain of `handleChat` (src/server.js lines
565-574): greeting check, then context excerpt (`ans || fixed message`),
then the fixed fallback. -/
def localReply (bot : Bot) (message foundText : String) : ChatResult :=
  if jsIncludes (jsToLower message) "hello" || jsIncludes (jsToLower message) "hi" then
    { reply := bot.welcome, quickReplies := bot.quickReplies }
  else if jsTruthy foundText then
    { reply :=
        if jsTruthy (jsJoinNewline ((jsSplitNewline foundText).take 4)) then
          jsJoinNewline ((jsSplitNewline foundText).take 4)
        else foundSomethingMsg
      quickReplies := bot.quickReplies }
  else
    { reply := dontKnowMsg, quickReplies := bot.quickReplies }

/-- `handleChat` (src/server.js lines 532-575). `hfKey` models `HF_API_KEY =
process.env.HF_API_KEY || ''` (an unset credential is the empty string,
which is falsy). When the key is truthy the inference call is attempted:
a parsed text is returned verbatim; a rejected request, or the TypeError
thrown while reading a null body, is caught by the surrounding catch, after
which control falls through to the shared local chain below the `if`. The
prompt built at line 547 only feeds the external call and is absorbed into
the `hf` outcome parameter. `handleChat` issues only SELECT statements, no
writes. -/
def handleChat (store : Store) (botId message hfKey : String) (hf : HfOutcome) :
    Except ChatError ChatResult :=
  match getBot store botId with
  | none => .error .botNotFound
  | some bot =>
    if jsTruthy hfKey then
      match hf with
      | .reject => .ok (localReply bot message (findContext store botId message))
      | .resolve data =>
        match hfParse data with
        | .ok t => .ok { reply := t, quickReplies := bot.quickReplies }
        | .error _ => .ok (localReply bot message (findContext store botId message))
    else
      .ok (localReply bot message (findContext store botId message))

/-- HTTP response of `POST /api/message`. -/
inductive HttpResponse where
  | ok (result : ChatResult)
  | badRequest (error : String)
  | notFound (error : String)
  | serverError (error : String)
deriving Repr, DecidableEq

/-- Is the response a 404? -/
def isNotFoundResp : HttpResponse → Bool
  | .notFound _ => true
  | _ => false

/-- `POST /api/message` (src/server.js lines 589-599): 400 when `botId` or
`message` is falsy; otherwise `handleChat`, whose result is returned as JSON
and whose thrown error is caught and answered as a 500 with `err.message`. -/
def postMessage (store : Store) (botId message : Option String) (hfKey : String)
    (hf : HfOutcome) : HttpResponse :=
  if jsFalsyOptStr botId || jsFalsyOptStr message then
    .badRequest "botId and message required"
  else
    match handleChat store (botId.getD "") (message.getD "") hfKey hf with
    | .ok r => .ok r
    | .error e => .serverError (chatErrorMessage e)

/-- The Resolve operation as a state transformer: `handleChat` performs only
SELECT statements (src/server.js lines 533, 536), so the store component
passes through unchanged. -/
def resolveOp (store : Store) (botId message hfKey : String) (hf : HfOutcome) :
    Store × Except ChatError ChatResult :=
  (store, handleChat store botId message hfKey hf)

/-- Concrete fixtures used by counterexamples and witnesses. -/
def botB : Bot := ⟨"b", "n", "A", "T", "W", ["q1", "q2"], 0⟩

def docAbc : Document := ⟨"d1", "b", "f1.txt", "abc", 1⟩

def storeB : Store := ⟨[botB], []⟩

def storeBD : Store := ⟨[botB], [docAbc]⟩

def emptyStore : Store := ⟨[], []⟩

/-! Helper lemmas shared by the claim theorems. -/

/-- As in JS, `hay.includes("")` is true for every string. -/
theorem jsIncludes_empty_needle (hay : String) : jsIncludes hay "" = true := by
  unfold jsIncludes
  rcases hay.toList with _ | ⟨c, t⟩ <;> rfl

/-- A found row satisfies the lookup predicate, so its id is the looked-up
one. -/
theorem getBot_id (store : Store) (botId : String) (bot : Bot)
    (h : getBot store botId = some bot) : bot.id = botId := by
  unfold getBot at h
  have hp := List.find?_some h
  simpa [botPred] using hp

/-- The document scan loop returns the 800-character cut of the first
matching document, and the empty string when none matches. -/
theorem findLoop_eq_first_match (tok : String) (l : List Document) :
    findLoop tok l =
      (match l.find? (docMatches tok) with
       | none => ""
       | some d => jsSlice d.text 800) := by
  induction l with
  | nil => rfl
  | cons d ds ih =>
    by_cases hd : docMatches tok d = true
    · rw [List.find?_cons_of_pos _ hd]
      simp [findLoop, hd]
    · rw [List.find?_cons_of_neg _ hd]
      simp only [findLoop]
      rw [if_neg hd]
      exact ih

/-- Updating the rows whose id matches rewrites the found row in place. -/
theorem find?_map_update (botId : String) (newBot : Bot) (hnew : newBot.id = botId)
    (l : List Bot) (bot : Bot) (h : l.find? (botPred botId) = some bot) :
    (l.map (fun b => if botPred botId b then newBot else b)).find? (botPred botId) =
      some newBot := by
  induction l with
  | nil => simp [List.find?] at h
  | cons x xs ih =>
    by_cases hx : botPred botId x = true
    · simp only [List.map_cons, if_pos hx]
      exact List.find?_cons_of_pos _ (by simp [botPred, hnew])
    · simp only [List.map_cons, if_neg hx]
      rw [List.find?_cons_of_neg _ hx]
      rw [List.find?_cons_of_neg _ hx] at h
      exact ih h

/-- Appending a row with a fresh id to a table in which no row has that id
makes it the row the lookup finds. -/
theorem find?_append_fresh (botId : String) (newBot : Bot) (hnew : newBot.id = botId)
    (l : List Bot) (h : l.find? (botPred botId) = none) :
    (l ++ [newBot]).find? (botPred botId) = some newBot := by
  induction l with
  | nil =>
    simp only [List.nil_append]
    exact List.find?_cons_of_pos _ (by simp [botPred, hnew])
  | cons x xs ih =>
    have hx : ¬ (botPred botId x = true) := by
      intro hx
      rw [List.find?_cons_of_pos _ hx] at h
      exact Option.noConfusion h
    rw [List.cons_append, List.find?_cons_of_neg _ hx]
    rw [List.find?_cons_of_neg _ hx] at h
    exact ih h

/-- Every branch of the shared local chain carries the stored quick-reply
list. -/
theorem localReply_quickReplies (bot : Bot) (m ft : String) :
    (localReply bot m ft).quickReplies = bot.quickReplies := by
  unfold localReply
  split
  · rfl
  · split <;> rfl

/-! Claim C1. -/

/-- Claim C1 as stated is false: for the unknown bot id `"b"` on the empty
store, `POST /api/message` answers 500 with the propagated message, not a
404 response. -/
theorem C1_counterexample :
    postMessage emptyStore (some "b") (some "x") "" .reject = .serverError "bot not found" ∧
    isNotFoundResp (postMessage emptyStore (some "b") (some "x") "" .reject) = false := by
  constructor <;> rfl

/-- Claim C1 amended: for every botId that does not identify an existing Bot
(and truthy botId and message, so the 400 guard does not fire), Resolve fails
with the bot-not-found error, and the HTTP layer of `POST /api/message`
reports it as a 500 response carrying the error message (its catch-all maps
every thrown error to 500; there is no 404 branch). -/
theorem C1_unknown_bot_500 (store : Store) (botId message hfKey : String) (hf : HfOutcome)
    (h : getBot store botId = none) (hb : botId ≠ "") (hm : message ≠ "") :
    handleChat store botId message hfKey hf = .error .botNotFound ∧
    postMessage store (some botId) (some message) hfKey hf = .serverError "bot not found" := by
  have hchat : handleChat store botId message hfKey hf = .error .botNotFound := by
    unfold handleChat
    rw [h]
  refine ⟨hchat, ?_⟩
  unfold postMessage
  simp [jsFalsyOptStr, hb, hm, hchat, chatErrorMessage]

/-- Witness for `C1_unknown_bot_500` at a concrete input. -/
theorem C1_unknown_bot_500_witness :
    (getBot emptyStore "zzz" = none ∧ ("zzz" : String) ≠ "" ∧ ("hey" : String) ≠ "") ∧
    (handleChat emptyStore "zzz" "hey" "" .reject = .error .botNotFound ∧
     postMessage emptyStore (some "zzz") (some "hey") "" .reject = .serverError "bot not found") :=
  ⟨⟨rfl, by decide, by decide⟩,
   C1_unknown_bot_500 emptyStore "zzz" "hey" "" .reject rfl (by decide) (by decide)⟩

/-! Claim C2. -/

/-- Claim C2 as stated is false: supplying the empty string for `welcome` on
a bot whose stored welcome is `"W"` leaves the stored value `"W"` (the
handler computes `req.body.welcome || bot.welcome`, and the empty string is
falsy), while the claim requires the supplied empty string to replace it. -/
theorem C2_counterexample :
    (getBot (updateBotSettings storeB "b" ⟨none, none, some "", none⟩).2 "b").map
        Bot.welcome = some "W" ∧
    ("W" : String) ≠ "" := by
  constructor
  · rfl
  · decide

/-- Claim C2 amended: for every existing Bot and every subset of
fields supplied to UpdateBotSettings: a supplied non-empty string field
replaces the stored value; a supplied empty string is falsy and is treated
like omission, retaining the stored value; a supplied quickReplies list
(including the empty list, which is truthy in JS) replaces the stored list;
every omitted field retains its stored value; and name, id and createdAt are
never changed by this operation. -/
theorem C2_partial_patch (store : Store) (botId : String) (req : UpdateReq) (bot : Bot)
    (h : getBot store botId = some bot) :
    ∃ bot2,
      (updateBotSettings store botId req).1 = .ok ∧
      getBot (updateBotSettings store botId req).2 botId = some bot2 ∧
      bot2.id = bot.id ∧ bot2.name = bot.name ∧ bot2.createdAt = bot.createdAt ∧
      (∀ v, req.avatar = some v → v ≠ "" → bot2.avatar = v) ∧
      ((req.avatar = none ∨ req.avatar = some "") → bot2.avatar = bot.avatar) ∧
      (∀ v, req.themeColor = some v → v ≠ "" → bot2.themeColor = v) ∧
      ((req.themeColor = none ∨ req.themeColor = some "") → bot2.themeColor = bot.themeColor) ∧
      (∀ v, req.welcome = some v → v ≠ "" → bot2.welcome = v) ∧
      ((req.welcome = none ∨ req.welcome = some "") → bot2.welcome = bot.welcome) ∧
      (∀ l, req.quickReplies = some l → bot2.quickReplies = l) ∧
      (req.quickReplies = none → bot2.quickReplies = bot.quickReplies) := by
  have hid : bot.id = botId := getBot_id store botId bot h
  refine ⟨{ bot with
      avatar := jsOrStr req.avatar bot.avatar
      themeColor := jsOrStr req.themeColor bot.themeColor
      welcome := jsOrStr req.welcome bot.welcome
      quickReplies := req.quickReplies.getD bot.quickReplies }, ?_, ?_, ?_, ?_, ?_,
    ?_, ?_, ?_, ?_, ?_, ?_, ?_, ?_⟩
  · simp only [updateBotSettings, h]
  · have h' : store.bots.find? (botPred botId) = some bot := h
    simp only [updateBotSettings, getBot, h, h']
    exact find?_map_update botId
      { bot with
        avatar := jsOrStr req.avatar bot.avatar
        themeColor := jsOrStr req.themeColor bot.themeColor
        welcome := jsOrStr req.welcome bot.welcome
        quickReplies := req.quickReplies.getD bot.quickReplies }
      hid store.bots bot h'
  · rfl
  · rfl
  · rfl
  · intro v hv hne
    simp [jsOrStr, hv, hne]
  · intro hv
    rcases hv with hv | hv <;> simp [jsOrStr, hv]
  · intro v hv hne
    simp [jsOrStr, hv, hne]
  · intro hv
    rcases hv with hv | hv <;> simp [jsOrStr, hv]
  · intro v hv hne
    simp [jsOrStr, hv, hne]
  · intro hv
    rcases hv with hv | hv <;> simp [jsOrStr, hv]
  · intro l hl
    simp [hl]
  · intro hl
    simp [hl]

/-- Witness for `C2_partial_patch` at a concrete input. -/
theorem C2_partial_patch_witness :
    getBot storeB "b" = some botB ∧
    (∃ bot2,
      (updateBotSettings storeB "b" ⟨some "A2", none, some "", some []⟩).1 = .ok ∧
      getBot (updateBotSettings storeB "b" ⟨some "A2", none, some "", some []⟩).2 "b" =
        some bot2 ∧
      bot2.id = botB.id ∧ bot2.name = botB.name ∧ bot2.createdAt = botB.createdAt ∧
      (∀ v, (some "A2" : Option String) = some v → v ≠ "" → bot2.avatar = v) ∧
      (((some "A2" : Option String) = none ∨ (some "A2" : Option String) = some "") →
        bot2.avatar = botB.avatar) ∧
      (∀ v, (none : Option String) = some v → v ≠ "" → bot2.themeColor = v) ∧
      (((none : Option String) = none ∨ (none : Option String) = some "") →
        bot2.themeColor = botB.themeColor) ∧
      (∀ v, (some "" : Option String) = some v → v ≠ "" → bot2.welcome = v) ∧
      (((some "" : Option String) = none ∨ (some "" : Option String) = some "") →
        bot2.welcome = botB.welcome) ∧
      (∀ l, (some ([] : List String) : Option (List String)) = some l →
        bot2.quickReplies = l) ∧
      ((some ([] : List String) : Option (List String)) = none →
        bot2.quickReplies = botB.quickReplies)) := by
  constructor
  · rfl
  · simpa using C2_partial_patch storeB "b" ⟨some "A2", none, some "", some []⟩ botB rfl

/-! Claim C3. -/

/-- Claim C3 is contradicted by the code: at the failing input (existing bot
`"b"`, file `"f.txt"` supplied, text extraction throws `"boom"`) the upload
handler answers 500 and the temporary upload file is not deleted — the
`fs.unlinkSync` call sits on the success path only, and the catch block has
no cleanup. The success case, shown for contrast, does delete it. -/
theorem C3_upload_cleanup_behavior :
    uploadDoc storeB "b" (some ⟨"f.txt", "text/plain"⟩) (.fail "boom") "d9" 5 =
      ⟨.serverError "boom", storeB, false⟩ ∧
    uploadDoc storeB "b" (some ⟨"f.txt", "text/plain"⟩) (.ok "Hello world") "d9" 5 =
      ⟨.ok "f.txt", ⟨[botB], [⟨"d9", "b", "f.txt", "Hello world", 5⟩]⟩, true⟩ := by
  constructor <;> rfl

/-! Claim C4. -/

/-- Claim C4 as stated is false: for the empty message (which the claim says
has no tokens and must yield the empty string), `FindContext` on a store
with one document of text `"abc"` returns `"abc"`: in JS
`"".split(' ')[0]` is `""` and every string contains `""`. -/
theorem C4_counterexample :
    findContext storeBD "b" "" = "abc" ∧ ("abc" : String) ≠ "" := by
  constructor
  · rfl
  · decide

/-- Claim C4 amended: `FindContext` returns the first 800 characters of the
first document (in persisted order) whose text is non-empty and whose
lowercased text contains, as a substring, the first space-delimited token of
the lowercased message; it returns the empty string exactly when no document
matches. The token of an empty or space-initial message is the empty string,
which every string contains (second conjunct), so such a message matches the
first document with non-empty text rather than yielding the empty string. -/
theorem C4_first_match (store : Store) (botId message : String) :
    (findContext store botId message =
      (match (getBotDocuments store botId).find?
          (docMatches (firstToken (jsToLower message))) with
       | none => ""
       | some d => jsSlice d.text 800)) ∧
    (∀ hay : String, jsIncludes hay "" = true) :=
  ⟨findLoop_eq_first_match _ _, jsIncludes_empty_needle⟩

/-! Claim C5. -/

/-- Claim C5: for every existing Bot, with no inference credential configured
(`HF_API_KEY` empty), Resolve returns the stored welcome text whenever the
lowercased message contains "hello" or "hi" as a substring (regardless of
documents); otherwise, when the retrieved context is non-empty, the first
four newline-joined lines of the context (or the fixed found-something
message if that join is empty); otherwise the fixed fallback message. -/
theorem C5_local_chain (store : Store) (botId message : String) (bot : Bot) (hf : HfOutcome)
    (h : getBot store botId = some bot) :
    ((jsIncludes (jsToLower message) "hello" = true ∨
      jsIncludes (jsToLower message) "hi" = true) →
      handleChat store botId message "" hf = .ok ⟨bot.welcome, bot.quickReplies⟩) ∧
    (jsIncludes (jsToLower message) "hello" = false →
      jsIncludes (jsToLower message) "hi" = false →
      findContext store botId message ≠ "" →
      handleChat store botId message "" hf =
        .ok ⟨(if jsJoinNewline ((jsSplitNewline (findContext store botId message)).take 4) = ""
              then foundSomethingMsg
              else jsJoinNewline ((jsSplitNewline (findContext store botId message)).take 4)),
             bot.quickReplies⟩) ∧
    (jsIncludes (jsToLower message) "hello" = false →
      jsIncludes (jsToLower message) "hi" = false →
      findContext store botId message = "" →
      handleChat store botId message "" hf = .ok ⟨dontKnowMsg, bot.quickReplies⟩) := by
  have hchat : handleChat store botId message "" hf =
      .ok (localReply bot message (findContext store botId message)) := by
    simp [handleChat, h, jsTruthy]
  refine ⟨?_, ?_, ?_⟩
  · intro hgr
    rw [hchat]
    rcases hgr with hgr | hgr <;> simp [localReply, hgr]
  · intro h1 h2 hctx
    rw [hchat]
    have hft : jsTruthy (findContext store botId message) = true := by
      simp [jsTruthy, hctx]
    by_cases hans : jsJoinNewline ((jsSplitNewline (findContext store botId message)).take 4) = ""
    · simp [localReply, h1, h2, hctx, hans, jsTruthy]
    · have hansb : jsTruthy
          (jsJoinNewline ((jsSplitNewline (findContext store botId message)).take 4)) = true := by
        simp [jsTruthy, hans]
      simp [localReply, h1, h2, hft, hansb, hans]
  · intro h1 h2 hctx
    rw [hchat]
    simp [localReply, h1, h2, hctx, jsTruthy]

/-- Witness for `C5_local_chain` at a concrete input: the greeting branch. -/
theorem C5_local_chain_witness :
    getBot storeB "b" = some botB ∧
    handleChat storeB "b" "hi" "" .reject = .ok ⟨botB.welcome, botB.quickReplies⟩ :=
  ⟨rfl, (C5_local_chain storeB "b" "hi" botB .reject rfl).1 (Or.inr (by decide))⟩

/-! Claim C6. -/

/-- Claim C6 as stated is false for one of its enumerated failure modes: a
2xx inference response whose body matches neither recognized shape
("malformed response") does not make Resolve fall through to the local
branches. With the credential configured and a matching-less body whose
serialization is `"raw-body"`, the reply is `"raw-body"`, while the local
chain at the same store and message would give the fixed fallback; no error
is propagated in either case. -/
theorem C6_counterexample :
    handleChat storeB "b" "what" "k" (.resolve (.obj none "raw-body")) =
      .ok ⟨"raw-body", ["q1", "q2"]⟩ ∧
    handleChat storeB "b" "what" "" (.resolve (.obj none "raw-body")) =
      .ok ⟨dontKnowMsg, ["q1", "q2"]⟩ ∧
    ("raw-body" : String) ≠ dontKnowMsg := by
  refine ⟨rfl, rfl, by decide⟩

/-- Claim C6 amended: for every existing Bot, with the credential configured,
Resolve never returns an error whatever the inference outcome; and when the
inference call fails — the request is rejected (timeout, transport error,
non-2xx status), or the body is null so that reading its generated-text
field throws — Resolve produces exactly the result of the local
greeting/context/fallback chain (the unconfigured behavior). A 2xx response
of unrecognized shape is instead answered with its serialized body as the
reply. -/
theorem C6_no_propagation (store : Store) (botId message hfKey : String) (bot : Bot)
    (hf : HfOutcome) (h : getBot store botId = some bot) (hkey : hfKey ≠ "") :
    (∃ r, handleChat store botId message hfKey hf = .ok r) ∧
    (hf = .reject →
      handleChat store botId message hfKey hf = handleChat store botId message "" .reject) ∧
    (hf = .resolve .nullish →
      handleChat store botId message hfKey hf = handleChat store botId message "" .reject) := by
  have hk : jsTruthy hfKey = true := by simp [jsTruthy, hkey]
  refine ⟨?_, ?_, ?_⟩
  · cases hf with
    | reject =>
      exact ⟨localReply bot message (findContext store botId message),
        by simp [handleChat, h, hk]⟩
    | resolve data =>
      cases hdp : hfParse data with
      | ok t =>
        exact ⟨⟨t, bot.quickReplies⟩, by simp [handleChat, h, hk, hdp]⟩
      | error u =>
        exact ⟨localReply bot message (findContext store botId message),
          by simp [handleChat, h, hk, hdp]⟩
  · rintro rfl
    simp [handleChat, h, hk, jsTruthy]
  · rintro rfl
    simp [handleChat, h, hk, hfParse, jsTruthy]

/-- Witness for `C6_no_propagation` at a concrete input. -/
theorem C6_no_propagation_witness :
    (getBot storeB "b" = some botB ∧ ("k" : String) ≠ "") ∧
    ((∃ r, handleChat storeB "b" "what" "k" .reject = .ok r) ∧
     (HfOutcome.reject = .reject →
       handleChat storeB "b" "what" "k" .reject = handleChat storeB "b" "what" "" .reject) ∧
     (HfOutcome.reject = .resolve .nullish →
       handleChat storeB "b" "what" "k" .reject = handleChat storeB "b" "what" "" .reject)) :=
  ⟨⟨rfl, by decide⟩, C6_no_propagation storeB "b" "what" "k" botB .reject rfl (by decide)⟩

/-! Claim C7. -/

/-- Claim C7: for every existing Bot and every message, in every branch of
Resolve (inference success, greeting, context excerpt, and both fixed
fallbacks) the quickReplies of the result equal the stored quick-reply list
unchanged. -/
theorem C7_quickReplies_stable (store : Store) (botId message hfKey : String) (hf : HfOutcome)
    (bot : Bot) (r : ChatResult)
    (h : getBot store botId = some bot)
    (hr : handleChat store botId message hfKey hf = .ok r) :
    r.quickReplies = bot.quickReplies := by
  simp only [handleChat, h] at hr
  split at hr
  · split at hr
    · cases hr
      exact localReply_quickReplies bot message (findContext store botId message)
    · split at hr
      · cases hr
        rfl
      · cases hr
        exact localReply_quickReplies bot message (findContext store botId message)
  · cases hr
    exact localReply_quickReplies bot message (findContext store botId message)

/-- Witness for `C7_quickReplies_stable` at a concrete input. -/
theorem C7_quickReplies_stable_witness :
    (getBot storeB "b" = some botB ∧
     handleChat storeB "b" "hello" "" .reject = .ok ⟨"W", ["q1", "q2"]⟩) ∧
    (ChatResult.mk "W" ["q1", "q2"]).quickReplies = botB.quickReplies :=
  ⟨⟨rfl, rfl⟩,
   C7_quickReplies_stable storeB "b" "hello" "" .reject botB ⟨"W", ["q1", "q2"]⟩ rfl rfl⟩

/-! Claim C8. -/

/-- Claim C8 as stated is false: create with name `"n"` and themeColor
supplied as the empty string; `GetBotSettings` returns themeColor
`"#4CAF50"`, not the supplied `""` (the route computes
`req.body.themeColor || '#4CAF50'` and the empty string is falsy), so a
supplied field is not always reproduced. -/
theorem C8_counterexample :
    (postBot emptyStore ⟨some "n", none, some "", none, none⟩ "id1" 0).1 = .ok "id1" ∧
    getBotSettings (postBot emptyStore ⟨some "n", none, some "", none, none⟩ "id1" 0).2 "id1" =
      .ok ⟨"id1", "n", "", "#4CAF50", "Hi! How can I help?", []⟩ ∧
    ("#4CAF50" : String) ≠ "" := by
  refine ⟨rfl, rfl, by decide⟩

/-- Claim C8 amended: for every CreateBot call with a non-empty name (and a
fresh generated id), GetBotSettings on the returned id reproduces the name
and every supplied non-empty optional string field, and any supplied
quickReplies list (empty or not); optional string fields that are omitted or
supplied as the empty string come back as the documented defaults (avatar
`""`, themeColor `"#4CAF50"`, welcome `"Hi! How can I help?"`), and omitted
quickReplies comes back as the empty list. -/
theorem C8_roundtrip (store : Store) (req : CreateBotReq) (nm freshId : String) (now : Nat)
    (hname : req.name = some nm) (hnm : nm ≠ "") (hfresh : getBot store freshId = none) :
    ∃ s,
      (postBot store req freshId now).1 = .ok freshId ∧
      getBotSettings (postBot store req freshId now).2 freshId = .ok s ∧
      s.id = freshId ∧ s.name = nm ∧
      (∀ v, req.avatar = some v → v ≠ "" → s.avatar = v) ∧
      ((req.avatar = none ∨ req.avatar = some "") → s.avatar = "") ∧
      (∀ v, req.themeColor = some v → v ≠ "" → s.themeColor = v) ∧
      ((req.themeColor = none ∨ req.themeColor = some "") → s.themeColor = "#4CAF50") ∧
      (∀ v, req.welcome = some v → v ≠ "" → s.welcome = v) ∧
      ((req.welcome = none ∨ req.welcome = some "") → s.welcome = "Hi! How can I help?") ∧
      (∀ l, req.quickReplies = some l → s.quickReplies = l) ∧
      (req.quickReplies = none → s.quickReplies = []) := by
  have hfalsy : jsFalsyOptStr req.name = false := by simp [jsFalsyOptStr, hname, hnm]
  have hfresh' : store.bots.find? (botPred freshId) = none := hfresh
  have hfind := find?_append_fresh freshId
    ⟨freshId, req.name.getD "", jsOrStr req.avatar "", jsOrStr req.themeColor "#4CAF50",
      jsOrStr req.welcome "Hi! How can I help?", req.quickReplies.getD [], now⟩
    rfl store.bots hfresh'
  refine ⟨⟨freshId, req.name.getD "", jsOrStr req.avatar "", jsOrStr req.themeColor "#4CAF50",
    jsOrStr req.welcome "Hi! How can I help?", req.quickReplies.getD []⟩,
    ?_, ?_, rfl, ?_, ?_, ?_, ?_, ?_, ?_, ?_, ?_, ?_⟩
  · simp [postBot, hfalsy]
  · simp [postBot, hfalsy, getBotSettings, getBot, createBotRecord, hfind]
  · simp [hname]
  · intro v hv hne
    simp [jsOrStr, hv, hne]
  · intro hv
    rcases hv with hv | hv <;> simp [jsOrStr, hv]
  · intro v hv hne
    simp [jsOrStr, hv, hne]
  · intro hv
    rcases hv with hv | hv <;> simp [jsOrStr, hv]
  · intro v hv hne
    simp [jsOrStr, hv, hne]
  · intro hv
    rcases hv with hv | hv <;> simp [jsOrStr, hv]
  · intro l hl
    simp [hl]
  · intro hl
    simp [hl]

/-- Witness for `C8_roundtrip` at a concrete input: avatar supplied as the
empty string, themeColor supplied non-empty, welcome omitted, quickReplies
supplied. -/
theorem C8_roundtrip_witness :
    ((⟨some "n", some "", some "T2", none, some ["x"]⟩ : CreateBotReq).name = some "n" ∧
      ("n" : String) ≠ "" ∧ getBot emptyStore "id1" = none) ∧
    (∃ s,
      (postBot emptyStore ⟨some "n", some "", some "T2", none, some ["x"]⟩ "id1" 0).1 =
        .ok "id1" ∧
      getBotSettings
          (postBot emptyStore ⟨some "n", some "", some "T2", none, some ["x"]⟩ "id1" 0).2
          "id1" = .ok s ∧
      s.id = "id1" ∧ s.name = "n" ∧
      (∀ v, (some "" : Option String) = some v → v ≠ "" → s.avatar = v) ∧
      (((some "" : Option String) = none ∨ (some "" : Option String) = some "") →
        s.avatar = "") ∧
      (∀ v, (some "T2" : Option String) = some v → v ≠ "" → s.themeColor = v) ∧
      (((some "T2" : Option String) = none ∨ (some "T2" : Option String) = some "") →
        s.themeColor = "#4CAF50") ∧
      (∀ v, (none : Option String) = some v → v ≠ "" → s.welcome = v) ∧
      (((none : Option String) = none ∨ (none : Option String) = some "") →
        s.welcome = "Hi! How can I help?") ∧
      (∀ l, (some ["x"] : Option (List String)) = some l → s.quickReplies = l) ∧
      ((some ["x"] : Option (List String)) = none → s.quickReplies = [])) := by
  constructor
  · exact ⟨rfl, by decide, rfl⟩
  · simpa using C8_roundtrip emptyStore ⟨some "n", some "", some "T2", none, some ["x"]⟩
      "n" "id1" 0 rfl (by decide) rfl

/-! Claim C9. -/

/-- Claim C9: with no inference credential configured, Resolve is a pure
read: the result does not depend on the external inference outcome (two
calls with identical store, bot id and message agree), and the store is
returned unchanged. -/
theorem C9_deterministic (store : Store) (botId message : String) (hf hf2 : HfOutcome) :
    resolveOp store botId message "" hf = resolveOp store botId message "" hf2 ∧
    (resolveOp store botId message "" hf).1 = store := by
  constructor
  · unfold resolveOp
    cases hgb : getBot store botId <;> simp [handleChat, hgb, jsTruthy]
  · rfl

/-! Claim C10. -/

/-- Claim C10: for every bot created via CreateBot without an avatar (and a
fresh id), GetBotSettings returns avatar equal to the empty string — the
creation route substitutes `''` for a missing avatar (`req.body.avatar ||
''`) before persisting, and the settings route returns the stored string. -/
theorem C10_default_avatar (store : Store) (req : CreateBotReq) (nm freshId : String)
    (now : Nat) (hname : req.name = some nm) (hnm : nm ≠ "") (havatar : req.avatar = none)
    (hfresh : getBot store freshId = none) :
    ∃ s,
      (postBot store req freshId now).1 = .ok freshId ∧
      getBotSettings (postBot store req freshId now).2 freshId = .ok s ∧
      s.avatar = "" := by
  have hfalsy : jsFalsyOptStr req.name = false := by simp [jsFalsyOptStr, hname, hnm]
  have hfresh' : store.bots.find? (botPred freshId) = none := hfresh
  have hfind := find?_append_fresh freshId
    ⟨freshId, req.name.getD "", jsOrStr req.avatar "", jsOrStr req.themeColor "#4CAF50",
      jsOrStr req.welcome "Hi! How can I help?", req.quickReplies.getD [], now⟩
    rfl store.bots hfresh'
  refine ⟨⟨freshId, req.name.getD "", jsOrStr req.avatar "",
    jsOrStr req.themeColor "#4CAF50", jsOrStr req.welcome "Hi! How can I help?",
    req.quickReplies.getD []⟩, ?_, ?_, ?_⟩
  · simp [postBot, hfalsy]
  · simp [postBot, hfalsy, getBotSettings, getBot, createBotRecord, hfind]
  · simp [jsOrStr, havatar]

/-- Witness for `C10_default_avatar` at a concrete input. -/
theorem C10_default_avatar_witness :
    ((⟨some "n", none, none, none, none⟩ : CreateBotReq).name = some "n" ∧
      ("n" : String) ≠ "" ∧
      (⟨some "n", none, none, none, none⟩ : CreateBotReq).avatar = none ∧
      getBot emptyStore "id1" = none) ∧
    (∃ s,
      (postBot emptyStore ⟨some "n", none, none, none, none⟩ "id1" 0).1 = .ok "id1" ∧
      getBotSettings (postBot emptyStore ⟨some "n", none, none, none, none⟩ "id1" 0).2
        "id1" = .ok s ∧
      s.avatar = "") :=
  ⟨⟨rfl, by decide, rfl, rfl⟩,
   C10_default_avatar emptyStore ⟨some "n", none, none, none, none⟩ "n" "id1" 0 rfl
     (by decide) rfl rfl⟩

end Fastbots
